import Mathlib

/-!
Verification of the streaming endpoint layer of the riptide SDK
(`riptide_sdk/endpoints/streaming.py`).

The adapters (`crawl_ndjson`, `deepsearch_ndjson`, `crawl_sse`,
`crawl_websocket`, `ping_websocket`) are shallowly embedded as pure
functions over the observable inputs of one call: the caller-supplied
arguments, the HTTP response (status code and the sequence of lines the
body yields), or the sequence of WebSocket text frames the server sends.
`json.loads` is an external library function; the embedding is
parametric in a decoder `decode : String → Option Json` (`none` models a
raised `json.JSONDecodeError`), and a small executable decoder
`jsonLoads` covering the JSON subset exercised by the concrete test
inputs (objects, arrays, strings without escapes, integers, booleans,
null) instantiates it in concrete runs.

Request-body assembly (`urls`, `options` serialisation) is write-only
I/O with no influence on the yielded events, and is not represented.
WebSocket frames are modelled as text frames (the `bytes` branch merely
utf-8-decodes before the same processing).
-/

/-- JSON values as produced by `json.loads`.  Numbers are modelled as
integers (the claims never involve float payloads); objects are
association lists in key order. -/
inductive Json where
  | null : Json
  | bool (b : Bool) : Json
  | num (n : Int) : Json
  | str (s : String) : Json
  | arr (xs : List Json) : Json
  | obj (fields : List (String × Json)) : Json

/-- Python `dict.get(k)` on a decoded JSON object: the value when the key
is present (a JSON `null` value and an absent key both give Python
`None`, hence `none`). -/
def dictGet (fs : List (String × Json)) (k : String) : Option Json :=
  match fs.lookup k with
  | some Json.null => none
  | o => o

/-- Characters stripped by Python `str.strip()`. -/
def isPySpace (c : Char) : Bool :=
  c = ' ' || c = '\t' || c = '\n' || c = '\r' || c = '\x0b' || c = '\x0c'

/-- Python `str.strip()`: remove leading and trailing whitespace. -/
def pyStrip (s : String) : String :=
  String.mk (((s.data.dropWhile isPySpace).reverse.dropWhile isPySpace).reverse)

/-- Python `str.startswith(p)`. -/
def pyStartsWith (s p : String) : Bool :=
  p.data.isPrefixOf s.data

/-- Whitespace skipped between JSON tokens (the set used by `json.loads`). -/
def skipWs (cs : List Char) : List Char :=
  cs.dropWhile fun c => c = ' ' || c = '\t' || c = '\n' || c = '\r'

/-- Read the body of a JSON string after the opening quote (subset:
no backslash escapes). -/
def parseStringChars : List Char → Option (String × List Char)
  | [] => none
  | c :: rest =>
    if c = '"' then some ("", rest)
    else if c = '\\' then none
    else (parseStringChars rest).map fun p => (String.mk (c :: p.1.data), p.2)

/-- Read one or more decimal digits. -/
def parseDigits (cs : List Char) : Option (Nat × List Char) :=
  let ds := cs.takeWhile Char.isDigit
  if ds.isEmpty then none
  else some (ds.foldl (fun n c => 10 * n + (c.toNat - 48)) 0, cs.dropWhile Char.isDigit)

/-- Read a JSON integer, with optional leading minus sign. -/
def parseNumber (cs : List Char) : Option (Json × List Char) :=
  match cs with
  | '-' :: rest => (parseDigits rest).map fun p => (Json.num (-(p.1 : Int)), p.2)
  | _ => (parseDigits cs).map fun p => (Json.num (p.1 : Int), p.2)

mutual

/-- Recursive-descent JSON value reader, fuelled for termination. -/
def parseValue : Nat → List Char → Option (Json × List Char)
  | 0, _ => none
  | fuel + 1, cs =>
    match skipWs cs with
    | 'n' :: 'u' :: 'l' :: 'l' :: rest => some (Json.null, rest)
    | 't' :: 'r' :: 'u' :: 'e' :: rest => some (Json.bool true, rest)
    | 'f' :: 'a' :: 'l' :: 's' :: 'e' :: rest => some (Json.bool false, rest)
    | '"' :: rest => (parseStringChars rest).map fun p => (Json.str p.1, p.2)
    | '[' :: rest =>
      (match skipWs rest with
       | ']' :: r2 => some (Json.arr [], r2)
       | r2 => (parseElems fuel r2).map fun p => (Json.arr p.1, p.2))
    | '{' :: rest =>
      (match skipWs rest with
       | '}' :: r2 => some (Json.obj [], r2)
       | r2 => (parseMembers fuel r2).map fun p => (Json.obj p.1, p.2))
    | rest => parseNumber rest

/-- Array elements after the opening bracket (non-empty case). -/
def parseElems : Nat → List Char → Option (List Json × List Char)
  | 0, _ => none
  | fuel + 1, cs =>
    match parseValue fuel cs with
    | none => none
    | some (j, r) =>
      match skipWs r with
      | ',' :: r2 => (parseElems fuel r2).map fun p => (j :: p.1, p.2)
      | ']' :: r2 => some ([j], r2)
      | _ => none

/-- Object members after the opening brace (non-empty case). -/
def parseMembers : Nat → List Char → Option (List (String × Json) × List Char)
  | 0, _ => none
  | fuel + 1, cs =>
    match skipWs cs with
    | '"' :: rest =>
      match parseStringChars rest with
      | none => none
      | some (k, r) =>
        match skipWs r with
        | ':' :: r2 =>
          (match parseValue fuel r2 with
           | none => none
           | some (v, r3) =>
             match skipWs r3 with
             | ',' :: r4 => (parseMembers fuel r4).map fun p => ((k, v) :: p.1, p.2)
             | '}' :: r4 => some ([(k, v)], r4)
             | _ => none)
        | _ => none
    | _ => none

end

/-- Executable model of `json.loads` on the modelled JSON subset:
`none` stands for a raised `json.JSONDecodeError`. -/
def jsonLoads (s : String) : Option Json :=
  match parseValue (s.length + 1) s.data with
  | some (j, rest) => if skipWs rest = [] then some j else none
  | none => none

/-- The `StreamingResult` record of `riptide_sdk/models.py`.  The
constructor performs no validation, so `event_type` holds whatever value
the adapter passed (for WebSocket frames, the raw `message_type` field,
which need not be a string); string kinds are injected via `Json.str`. -/
structure StreamingResult where
  event_type : Json
  data : Json
  timestamp : Option Json := none

/-- Exception classes of the SDK and of the Python runtime that the
streaming layer can raise or observe.  All of them are subclasses of
`Exception`. -/
inductive PyExc where
  | jsonDecodeError : PyExc
  | attributeError : PyExc
  | streamingError : PyExc
  | validationError : PyExc
  | otherError : PyExc
deriving DecidableEq, Repr

/-- How one full consumption of an adapter call ends: the generator is
exhausted normally, or an exception escapes to the caller. -/
inductive Outcome where
  | completed : Outcome
  | raised (e : PyExc) : Outcome
deriving DecidableEq, Repr

/-- Observable result of fully consuming one HTTP-based adapter call:
whether the connection factory was invoked, the events yielded in order,
and how the iteration ended. -/
structure AdapterRun where
  connected : Bool
  events : List StreamingResult
  outcome : Outcome

/-- The HTTP streaming response observed by an NDJSON or SSE call:
status code and the lines `aiter_lines` yields. -/
structure HttpResponse where
  status_code : Nat
  lines : List String
deriving DecidableEq, Repr

/-- One pass of the NDJSON read loop (`streaming.py` lines 82-91 and
140-149): skip lines that are blank after `strip()`, decode the raw line
with `json.loads`, wrap the decoded value with the fixed `event_type`,
and raise `StreamingError` on the first undecodable line (the generator
stops there, so no later line is read). -/
def ndjsonLineEvents (decode : String → Option Json) (kind : String) :
    List String → List StreamingResult × Outcome
  | [] => ([], Outcome.completed)
  | l :: rest =>
    if pyStrip l = "" then ndjsonLineEvents decode kind rest
    else
      match decode l with
      | some j =>
        let r := ndjsonLineEvents decode kind rest
        (⟨Json.str kind, j, none⟩ :: r.1, r.2)
      | none => ([], Outcome.raised PyExc.streamingError)

/-- `StreamingAPI.crawl_ndjson`: empty URL list raises `ValidationError`
before the connection factory is invoked; a non-200 response raises
`StreamingError`; otherwise the body lines are streamed through
`ndjsonLineEvents` with `event_type="crawl_result"`. -/
def crawl_ndjson (decode : String → Option Json) (urls : List String)
    (resp : HttpResponse) : AdapterRun :=
  if urls = [] then ⟨false, [], Outcome.raised PyExc.validationError⟩
  else if resp.status_code ≠ 200 then ⟨true, [], Outcome.raised PyExc.streamingError⟩
  else
    let r := ndjsonLineEvents decode "crawl_result" resp.lines
    ⟨true, r.1, r.2⟩

/-- `StreamingAPI.deepsearch_ndjson`: empty query raises
`ValidationError` before connecting; same line loop with
`event_type="search_result"`. -/
def deepsearch_ndjson (decode : String → Option Json) (query : String)
    (resp : HttpResponse) : AdapterRun :=
  if query = "" then ⟨false, [], Outcome.raised PyExc.validationError⟩
  else if resp.status_code ≠ 200 then ⟨true, [], Outcome.raised PyExc.streamingError⟩
  else
    let r := ndjsonLineEvents decode "search_result" resp.lines
    ⟨true, r.1, r.2⟩

/-- Committing one SSE block (`streaming.py` lines 203-216): the
buffered `data:` payloads are newline-joined, JSON-decoded if possible,
else passed through as a raw-string payload. -/
def sseCommit (decode : String → Option Json) (k : String)
    (buf : List String) : StreamingResult :=
  let ds := String.intercalate "\n" buf
  match decode ds with
  | some j => ⟨Json.str k, j, none⟩
  | none => ⟨Json.str k, Json.obj [("raw", Json.str ds)], none⟩

/-- The SSE read loop (`streaming.py` lines 195-224), carrying the
pending event kind `k` (initially `"message"`) and the pending `data:`
buffer.  Each line is stripped; a blank line commits a non-empty buffer
and resets both state components; `event:` lines set the pending kind to
the stripped remainder; `data:` lines append the stripped remainder;
anything else is ignored. -/
def sseLoop (decode : String → Option Json) (k : String) (buf : List String) :
    List String → List StreamingResult
  | [] => []
  | l0 :: rest =>
    let line := pyStrip l0
    if line = "" then
      if buf = [] then sseLoop decode k buf rest
      else sseCommit decode k buf :: sseLoop decode "message" [] rest
    else if pyStartsWith line "event:" then
      sseLoop decode (pyStrip (line.drop 6)) buf rest
    else if pyStartsWith line "data:" then
      sseLoop decode k (buf ++ [pyStrip (line.drop 5)]) rest
    else sseLoop decode k buf rest

/-- `StreamingAPI.crawl_sse`: validation and status handling as for
NDJSON, then the SSE block-accumulation loop started with kind
`"message"` and an empty buffer. -/
def crawl_sse (decode : String → Option Json) (urls : List String)
    (resp : HttpResponse) : AdapterRun :=
  if urls = [] then ⟨false, [], Outcome.raised PyExc.validationError⟩
  else if resp.status_code ≠ 200 then ⟨true, [], Outcome.raised PyExc.streamingError⟩
  else ⟨true, sseLoop decode "message" [] resp.lines, Outcome.completed⟩

/-- A caller-supplied `on_message` handler: `none` means the call
returns normally, `some e` means it raises exception `e`. -/
def Handler : Type := StreamingResult → Option PyExc

/-- One observable action of a `crawl_websocket` consumption: the
optional handler being invoked with an event, or an event being yielded
to the caller.  The trace records both in temporal order. -/
inductive WsAction where
  | callback (r : StreamingResult) : WsAction
  | yielded (r : StreamingResult) : WsAction

/-- Trace and final outcome of fully consuming one `crawl_websocket`
call. -/
structure WsRun where
  trace : List WsAction
  outcome : Outcome

/-- Invoke the optional handler (`if on_message: await on_message(r)`):
the exception it raises, if any. -/
def hRaise (h : Option Handler) (r : StreamingResult) : Option PyExc :=
  match h with
  | some f => f r
  | none => none

/-- Trace contribution of the optional handler invocation: one
`callback` action when a handler is supplied, nothing otherwise. -/
def hTrace (h : Option Handler) (r : StreamingResult) : List WsAction :=
  match h with
  | some _ => [WsAction.callback r]
  | none => []

/-- Python `result.event_type == "summary"`: true exactly when the kind
is the string `"summary"` (a non-string kind never compares equal). -/
def isSummaryKind : Json → Bool
  | Json.str s => s = "summary"
  | _ => false

/-- Python `d.get("timestamp")` stored into the optional `timestamp`
field: both an absent key and a JSON `null` give Python `None`. -/
def tsOf (fs : List (String × Json)) : Option Json :=
  dictGet fs "timestamp"

/-- The event built from a decoded WebSocket envelope object
(`streaming.py` lines 305-309 and 334-338): `event_type` is the raw
`message_type` value with the given default, `data` is the `"data"`
entry defaulting to the whole decoded object, `timestamp` the optional
`"timestamp"` entry. -/
def wsObjEvent (dk : String) (fs : List (String × Json)) : StreamingResult :=
  ⟨(fs.lookup "message_type").getD (Json.str dk),
   (fs.lookup "data").getD (Json.obj fs),
   tsOf fs⟩

/-- Turn one decoded WebSocket message into an event: `.get` is only
defined on a decoded dict, so a message decoding to any non-object JSON
value raises `AttributeError` (modelled as `none`). -/
def wsEventOf (dk : String) : Json → Option StreamingResult
  | Json.obj fs => some (wsObjEvent dk fs)
  | _ => none

/-- The inline error event built when `json.loads` raises inside the
receive loop (`streaming.py` lines 349-353): kind `"error"`, payload
carrying the decode failure and the raw message text.  The human-readable
exception text is abbreviated to its fixed prefix. -/
def wsErrorEvent (m : String) : StreamingResult :=
  ⟨Json.str "error",
   Json.obj [("error", Json.str "Invalid JSON received"), ("raw", Json.str m)],
   none⟩

/-- Effect of processing one message inside the receive loop: either
some trace actions are emitted and the loop continues (`stop = false`)
or stops after a `summary` event (`stop = true`), or an exception
escapes the loop and is re-raised by the outer handler as
`StreamingError`. -/
inductive WsStep where
  | emit (acts : List WsAction) (stop : Bool) : WsStep
  | abort (acts : List WsAction) : WsStep

/-- One iteration of the receive loop (`streaming.py` lines 328-356).
A message failing `json.loads` becomes an inline error event (the
handler, invoked inside the `except` block, can still abort the call by
raising).  A decoded non-object raises `AttributeError`, which the outer
`except Exception` turns into `StreamingError`.  A handler exception of
class `json.JSONDecodeError` raised inside the `try` is caught by the
inner `except` and converted into an inline error event for the raw
message; any other handler exception escapes to the outer handler.
After a successful yield the loop stops when the event kind equals
`"summary"`. -/
def wsStep (decode : String → Option Json) (h : Option Handler) (m : String) : WsStep :=
  match decode m with
  | none =>
    let er := wsErrorEvent m
    (match hRaise h er with
     | some _ => WsStep.abort (hTrace h er)
     | none => WsStep.emit (hTrace h er ++ [WsAction.yielded er]) false)
  | some j =>
    match wsEventOf "message" j with
    | none => WsStep.abort []
    | some r =>
      match hRaise h r with
      | some PyExc.jsonDecodeError =>
        let er := wsErrorEvent m
        (match hRaise h er with
         | some _ => WsStep.abort (hTrace h r ++ hTrace h er)
         | none => WsStep.emit (hTrace h r ++ hTrace h er ++ [WsAction.yielded er]) false)
      | some _ => WsStep.abort (hTrace h r)
      | none => WsStep.emit (hTrace h r ++ [WsAction.yielded r]) (isSummaryKind r.event_type)

/-- The receive loop over the post-welcome server messages: process each
message in order, stopping after a `summary` event (later messages are
never read) or when an exception aborts the call. -/
def wsLoop (decode : String → Option Json) (h : Option Handler) :
    List String → WsRun
  | [] => ⟨[], Outcome.completed⟩
  | m :: rest =>
    match wsStep decode h m with
    | WsStep.abort acts => ⟨acts, Outcome.raised PyExc.streamingError⟩
    | WsStep.emit acts stop =>
      if stop then ⟨acts, Outcome.completed⟩
      else
        let r := wsLoop decode h rest
        ⟨acts ++ r.trace, r.outcome⟩

/-- `StreamingAPI.crawl_websocket` over the server's text frames
(first the welcome frame, then the post-request messages).  An empty URL
list raises `ValidationError` before connecting.  The welcome frame is
decoded outside the loop's `try`, so a decode failure or a non-object
welcome raises `StreamingError` (wrapped by the outer `except Exception`)
and yields nothing; the handler runs on the welcome event before it is
yielded, and a handler exception there is likewise wrapped. -/
def crawl_websocket (decode : String → Option Json) (urls : List String)
    (h : Option Handler) (msgs : List String) : WsRun :=
  if urls = [] then ⟨[], Outcome.raised PyExc.validationError⟩
  else
    match msgs with
    | [] => ⟨[], Outcome.raised PyExc.streamingError⟩
    | w :: rest =>
      match decode w with
      | none => ⟨[], Outcome.raised PyExc.streamingError⟩
      | some j =>
        match wsEventOf "welcome" j with
        | none => ⟨[], Outcome.raised PyExc.streamingError⟩
        | some wr =>
          match hRaise h wr with
          | some _ => ⟨hTrace h wr, Outcome.raised PyExc.streamingError⟩
          | none =>
            let r := wsLoop decode h rest
            ⟨hTrace h wr ++ WsAction.yielded wr :: r.trace, r.outcome⟩

/-- The events yielded to the caller, extracted from a trace. -/
def wsEvents (tr : List WsAction) : List StreamingResult :=
  tr.filterMap fun a =>
    match a with
    | WsAction.yielded r => some r
    | WsAction.callback _ => none

/-- The handler invocations, extracted from a trace. -/
def wsCalls (tr : List WsAction) : List StreamingResult :=
  tr.filterMap fun a =>
    match a with
    | WsAction.callback r => some r
    | WsAction.yielded _ => none

/-- The result record returned by `ping_websocket`. -/
structure PingResult where
  success : Bool
  latency_ms : Int
  server_time : Option Json
  session_id : Option Json

/-- `StreamingAPI.ping_websocket` over the two frames of one auxiliary
connection.  `t_start` is the event-loop clock before the connection is
opened and `t_end` the clock right after the pong frame arrives; clock
values are modelled as integers in arbitrary units.  The welcome frame
is received but its content is discarded (never decoded); the returned
`server_time` and `session_id` are read from the pong payload's `"data"`
object.  Any exception inside (decode failure, `.get` on a non-dict) is
wrapped by `except Exception` into `StreamingError`. -/
def ping_websocket (decode : String → Option Json) (t_start t_end : Int)
    (_welcome pong : String) : Except PyExc PingResult :=
  match decode pong with
  | none => Except.error PyExc.streamingError
  | some j =>
    match j with
    | Json.obj fs =>
      match (fs.lookup "data").getD (Json.obj []) with
      | Json.obj dfs =>
        Except.ok
          { success := true
            latency_ms := (t_end - t_start) * 1000
            server_time := dictGet dfs "timestamp"
            session_id := dictGet dfs "session_id" }
      | _ => Except.error PyExc.streamingError
    | _ => Except.error PyExc.streamingError

/-- Expected NDJSON output: one event of the fixed kind per line that is
non-blank after `strip()`, carrying the decoded line, in input order. -/
def ndjsonExpected (decode : String → Option Json) (kind : String)
    (lines : List String) : List StreamingResult :=
  lines.filterMap fun l =>
    if pyStrip l = "" then none
    else (decode l).map fun j => ⟨Json.str kind, j, none⟩

theorem ndjsonLineEvents_append_bad (decode : String → Option Json) (kind : String)
    (pre : List String) (bad : String) (post : List String)
    (hpre : ∀ l ∈ pre, pyStrip l ≠ "" → (decode l).isSome = true)
    (hb1 : pyStrip bad ≠ "") (hb2 : decode bad = none) :
    ndjsonLineEvents decode kind (pre ++ bad :: post)
      = (ndjsonExpected decode kind pre, Outcome.raised PyExc.streamingError) := by
  induction pre with
  | nil => simp [ndjsonLineEvents, ndjsonExpected, hb1, hb2]
  | cons l ls ih =>
    have hls : ∀ x ∈ ls, pyStrip x ≠ "" → (decode x).isSome = true :=
      fun x hx => hpre x (List.mem_cons_of_mem _ hx)
    by_cases hl : pyStrip l = ""
    · simp [ndjsonLineEvents, ndjsonExpected, hl, ih hls]
    · obtain ⟨j, hj⟩ := Option.isSome_iff_exists.mp (hpre l (List.mem_cons_self _ _) hl)
      simp [ndjsonLineEvents, ndjsonExpected, hl, hj, ih hls]

/-- C1: for a `crawl_ndjson` call with non-empty `urls` and a 200
response whose body is some well-formed prefix, then a non-blank line
that fails JSON decoding, then anything at all, the iteration yields
exactly one `"crawl_result"` event per well-formed prefix line in input
order, raises `StreamingError` at the bad line, and the whole observable
run is independent of what follows the bad line (no later line is
read). -/
theorem crawl_ndjson_bad_line_fail_fast
    (decode : String → Option Json) (urls : List String)
    (pre post : List String) (bad : String)
    (hu : urls ≠ [])
    (hpre : ∀ l ∈ pre, pyStrip l ≠ "" → (decode l).isSome = true)
    (hb1 : pyStrip bad ≠ "") (hb2 : decode bad = none) :
    crawl_ndjson decode urls ⟨200, pre ++ bad :: post⟩
      = ⟨true, ndjsonExpected decode "crawl_result" pre,
         Outcome.raised PyExc.streamingError⟩
    ∧ ∀ post2, crawl_ndjson decode urls ⟨200, pre ++ bad :: post2⟩
        = crawl_ndjson decode urls ⟨200, pre ++ bad :: post⟩ := by
  have key : ∀ p : List String, crawl_ndjson decode urls ⟨200, pre ++ bad :: p⟩
      = ⟨true, ndjsonExpected decode "crawl_result" pre,
         Outcome.raised PyExc.streamingError⟩ := by
    intro p
    simp [crawl_ndjson, hu, ndjsonLineEvents_append_bad decode _ pre bad p hpre hb1 hb2]
  exact ⟨key post, fun post2 => (key post2).trans (key post).symm⟩

/-- Witness for C1 at a concrete stream: one good line, one blank line,
then a malformed line, then a further well-formed line that is never
reached. -/
theorem crawl_ndjson_bad_line_fail_fast_witness :
    crawl_ndjson jsonLoads ["u"] ⟨200, ["\x7b\"x\":1\x7d", " ", "oops", "\x7b\"y\":2\x7d"]⟩
      = ⟨true, ndjsonExpected jsonLoads "crawl_result" ["\x7b\"x\":1\x7d", " "],
         Outcome.raised PyExc.streamingError⟩
    ∧ ∀ post2, crawl_ndjson jsonLoads ["u"] ⟨200, ["\x7b\"x\":1\x7d", " "] ++ "oops" :: post2⟩
        = crawl_ndjson jsonLoads ["u"] ⟨200, ["\x7b\"x\":1\x7d", " ", "oops", "\x7b\"y\":2\x7d"]⟩ :=
  crawl_ndjson_bad_line_fail_fast jsonLoads ["u"] ["\x7b\"x\":1\x7d", " "] ["\x7b\"y\":2\x7d"]
    "oops" (by decide) (by decide) (by decide) rfl

theorem wsEvents_append (a b : List WsAction) :
    wsEvents (a ++ b) = wsEvents a ++ wsEvents b := by
  simp [wsEvents, List.filterMap_append]

theorem wsEvents_hTrace (h : Option Handler) (r : StreamingResult) :
    wsEvents (hTrace h r) = [] := by
  cases h <;> simp [hTrace, wsEvents]

theorem wsEvents_nil : wsEvents [] = [] := rfl

theorem wsEvents_cons_yielded (r : StreamingResult) (tr : List WsAction) :
    wsEvents (WsAction.yielded r :: tr) = r :: wsEvents tr := rfl

theorem wsEvents_cons_callback (r : StreamingResult) (tr : List WsAction) :
    wsEvents (WsAction.callback r :: tr) = wsEvents tr := rfl

/-- Concrete server frames used in the concrete runs below. -/
def msgWelcome : String :=
  "\x7b\"message_type\":\"welcome\",\"data\":\x7b\"session_id\":\"A\"\x7d\x7d"

def msgMetadata : String :=
  "\x7b\"message_type\":\"metadata\",\"data\":\x7b\"n\":2\x7d\x7d"

def msgResult : String :=
  "\x7b\"message_type\":\"result\",\"data\":\x7b\"url\":\"u\"\x7d\x7d"

def msgSummary : String :=
  "\x7b\"message_type\":\"summary\",\"data\":\x7b\"ok\":true\x7d\x7d"

def msgPong : String :=
  "\x7b\"message_type\":\"pong\",\"data\":\x7b\"session_id\":\"B\",\"timestamp\":\"T\"\x7d\x7d"

/-- C2: inside the `crawl_websocket` receive loop, a message that fails
JSON decoding does not raise: it contributes exactly one `kind="error"`
event whose payload carries the decode failure and the raw message text,
and the loop then continues exactly as it would on the remaining
messages; in particular the next message that decodes to an object is
still turned into its event and yielded right after the error event. -/
theorem crawl_websocket_bad_message_inline_error
    (decode : String → Option Json) (bad : String) (msgs : List String)
    (hb : decode bad = none) :
    wsLoop decode none (bad :: msgs)
      = ⟨WsAction.yielded (wsErrorEvent bad) :: (wsLoop decode none msgs).trace,
         (wsLoop decode none msgs).outcome⟩
    ∧ (wsErrorEvent bad).event_type = Json.str "error"
    ∧ (wsErrorEvent bad).data
        = Json.obj [("error", Json.str "Invalid JSON received"), ("raw", Json.str bad)]
    ∧ ∀ good fs rest, decode good = some (Json.obj fs) →
        (wsEvents (wsLoop decode none (bad :: good :: rest)).trace).take 2
          = [wsErrorEvent bad, wsObjEvent "message" fs] := by
  refine ⟨?_, rfl, rfl, ?_⟩
  · simp [wsLoop, wsStep, hb, hRaise, hTrace]
  · intro good fs rest hg
    by_cases hs : isSummaryKind (wsObjEvent "message" fs).event_type = true
    · simp [wsLoop, wsStep, hb, hg, hRaise, hTrace, wsEventOf, hs, wsEvents]
    · simp [wsLoop, wsStep, hb, hg, hRaise, hTrace, wsEventOf, hs, wsEvents]

/-- Witness for C2: the malformed frame `"oops"` arriving between the
metadata frame and the summary frame. -/
theorem crawl_websocket_bad_message_inline_error_witness :
    wsLoop jsonLoads none ("oops" :: [msgResult, msgSummary])
      = ⟨WsAction.yielded (wsErrorEvent "oops")
           :: (wsLoop jsonLoads none [msgResult, msgSummary]).trace,
         (wsLoop jsonLoads none [msgResult, msgSummary]).outcome⟩
    ∧ (wsErrorEvent "oops").event_type = Json.str "error"
    ∧ (wsErrorEvent "oops").data
        = Json.obj [("error", Json.str "Invalid JSON received"), ("raw", Json.str "oops")]
    ∧ ∀ good fs rest, jsonLoads good = some (Json.obj fs) →
        (wsEvents (wsLoop jsonLoads none ("oops" :: good :: rest)).trace).take 2
          = [wsErrorEvent "oops", wsObjEvent "message" fs] :=
  crawl_websocket_bad_message_inline_error jsonLoads "oops" [msgResult, msgSummary] rfl

/-- C3 counterexample: the server message `"5"` is valid JSON but not an
object, so `data.get(...)` raises `AttributeError`, which the outer
`except Exception` re-raises as `StreamingError`: the session
`welcome, 5, summary` yields only the welcome event — not one event per
received message up to a summary, as the claim states. -/
theorem crawl_websocket_one_event_per_message_cex :
    wsEvents (crawl_websocket jsonLoads ["u"] none [msgWelcome, "5", msgSummary]).trace
      = [⟨Json.str "welcome", Json.obj [("session_id", Json.str "A")], none⟩]
    ∧ (crawl_websocket jsonLoads ["u"] none [msgWelcome, "5", msgSummary]).outcome
        = Outcome.raised PyExc.streamingError
    ∧ (wsEvents (crawl_websocket jsonLoads ["u"] none [msgWelcome, "5", msgSummary]).trace).length
        ≠ [msgWelcome, "5", msgSummary].length := by
  refine ⟨rfl, rfl, ?_⟩
  have h1 : (wsEvents (crawl_websocket jsonLoads ["u"] none
      [msgWelcome, "5", msgSummary]).trace).length = 1 := rfl
  rw [h1]
  decide

/-- The event sequence the receive loop is expected to yield: one event
per message in receipt order — an inline error event for an undecodable
message, the envelope event otherwise — cut off after the first
`summary`-kinded event; a message decoding to a non-object JSON value
aborts the stream with no event for it or anything later. -/
def wsExpectedEvents (decode : String → Option Json) : List String → List StreamingResult
  | [] => []
  | m :: rest =>
    match decode m with
    | none => wsErrorEvent m :: wsExpectedEvents decode rest
    | some j =>
      match wsEventOf "message" j with
      | none => []
      | some r =>
        r :: (if isSummaryKind r.event_type then [] else wsExpectedEvents decode rest)

/-- C3 amended: with no callback handler, the receive loop yields
exactly one event per received message in strict receipt order, up to
and including the first `summary`-kinded event — except that a message
decoding to a non-object JSON value raises `StreamingError` with no
event for it or any later message.  After a `summary`-kinded event the
remaining messages are never read (the run is independent of them), and
the concrete session `welcome, metadata, result, summary` yields exactly
those 4 events in order, a fifth message never being observed. -/
theorem crawl_websocket_events_per_message_amended (decode : String → Option Json) :
    (∀ msgs, wsEvents (wsLoop decode none msgs).trace = wsExpectedEvents decode msgs)
    ∧ (∀ h m fs rest rest2, decode m = some (Json.obj fs) →
        isSummaryKind (wsObjEvent "message" fs).event_type = true →
        hRaise h (wsObjEvent "message" fs) = none →
        wsLoop decode h (m :: rest) = wsLoop decode h (m :: rest2))
    ∧ wsEvents (crawl_websocket jsonLoads ["u"] none
          [msgWelcome, msgMetadata, msgResult, msgSummary, msgResult]).trace
        = [⟨Json.str "welcome", Json.obj [("session_id", Json.str "A")], none⟩,
           ⟨Json.str "metadata", Json.obj [("n", Json.num 2)], none⟩,
           ⟨Json.str "result", Json.obj [("url", Json.str "u")], none⟩,
           ⟨Json.str "summary", Json.obj [("ok", Json.bool true)], none⟩]
    ∧ crawl_websocket jsonLoads ["u"] none
          [msgWelcome, msgMetadata, msgResult, msgSummary, msgResult]
        = crawl_websocket jsonLoads ["u"] none
          [msgWelcome, msgMetadata, msgResult, msgSummary] := by
  refine ⟨?_, ?_, rfl, rfl⟩
  · intro msgs
    induction msgs with
    | nil => rfl
    | cons m rest ih =>
      cases hd : decode m with
      | none =>
        simp [wsLoop, wsStep, hd, hRaise, hTrace, wsExpectedEvents,
              wsEvents_cons_yielded, ih]
      | some j =>
        cases hj : wsEventOf "message" j with
        | none =>
          simp [wsLoop, wsStep, hd, hj, hRaise, wsExpectedEvents, wsEvents_nil]
        | some r =>
          by_cases hs : isSummaryKind r.event_type = true
          · simp [wsLoop, wsStep, hd, hj, hRaise, hTrace, hs, wsExpectedEvents,
                  wsEvents_cons_yielded, wsEvents_nil]
          · simp [wsLoop, wsStep, hd, hj, hRaise, hTrace, hs, wsExpectedEvents,
                  wsEvents_cons_yielded, ih]
  · intro h m fs rest rest2 hd hsum hr
    simp [wsLoop, wsStep, hd, wsEventOf, hr, hsum]

/-- Witness for C3 amended, at the concrete decoder and the concrete
summary frame followed by different unread suffixes. -/
theorem crawl_websocket_events_per_message_amended_witness :
    wsEvents (wsLoop jsonLoads none [msgResult, msgSummary, msgResult]).trace
      = wsExpectedEvents jsonLoads [msgResult, msgSummary, msgResult]
    ∧ wsLoop jsonLoads none (msgSummary :: [msgResult])
        = wsLoop jsonLoads none (msgSummary :: []) :=
  ⟨(crawl_websocket_events_per_message_amended jsonLoads).1 [msgResult, msgSummary, msgResult],
   (crawl_websocket_events_per_message_amended jsonLoads).2.1 none msgSummary
     [("message_type", Json.str "summary"), ("data", Json.obj [("ok", Json.bool true)])]
     [msgResult] [] rfl rfl rfl⟩

theorem pyStartsWith_event_ne_empty (s : String) (h : pyStartsWith s "event:" = true) :
    s ≠ "" := by
  intro he
  rw [he] at h
  exact absurd h (by decide)

theorem pyStartsWith_data_ne_empty (s : String) (h : pyStartsWith s "data:" = true) :
    s ≠ "" := by
  intro he
  rw [he] at h
  exact absurd h (by decide)

theorem pyStartsWith_data_not_event (s : String) (h : pyStartsWith s "data:" = true) :
    pyStartsWith s "event:" = false := by
  rcases s with ⟨cs⟩
  cases cs with
  | nil => exact absurd h (by decide)
  | cons c cs =>
    have hd : ("data:" : String).data = ['d', 'a', 't', 'a', ':'] := rfl
    have he : ("event:" : String).data = ['e', 'v', 'e', 'n', 't', ':'] := rfl
    simp only [pyStartsWith, hd, he, String.data] at h ⊢
    simp only [List.isPrefixOf, Bool.and_eq_true, beq_iff_eq] at h
    obtain ⟨hc, -⟩ := h
    subst hc
    simp [List.isPrefixOf]

/-- C4: the SSE loop implements the block-accumulation algorithm — an
`event:` line sets the pending kind to its stripped remainder; a `data:`
line appends its stripped remainder to the pending buffer; a blank line
commits a block with buffered data, the buffered lines newline-joined
and JSON-decoded if possible (else wrapped as a raw-string payload),
after which both the pending kind and the buffer reset to their defaults
(`"message"`, empty); `crawl_sse` starts the loop in that default state,
so the kind defaults to `"message"` when no `event:` line was seen; and
the concrete block `event: result` / `data: {"a":` / `data: 1}` / blank
yields exactly one event of kind `"result"` with payload `{"a": 1}`. -/
theorem crawl_sse_block_accumulation (decode : String → Option Json) :
    (∀ k buf l rest, pyStartsWith (pyStrip l) "event:" = true →
        sseLoop decode k buf (l :: rest)
          = sseLoop decode (pyStrip ((pyStrip l).drop 6)) buf rest)
    ∧ (∀ k buf l rest, pyStartsWith (pyStrip l) "data:" = true →
        sseLoop decode k buf (l :: rest)
          = sseLoop decode k (buf ++ [pyStrip ((pyStrip l).drop 5)]) rest)
    ∧ (∀ k buf l rest, pyStrip l = "" → buf ≠ [] →
        sseLoop decode k buf (l :: rest)
          = sseCommit decode k buf :: sseLoop decode "message" [] rest)
    ∧ (∀ urls resp, urls ≠ [] → resp.status_code = 200 →
        crawl_sse decode urls resp
          = ⟨true, sseLoop decode "message" [] resp.lines, Outcome.completed⟩)
    ∧ sseLoop jsonLoads "message" []
          ["event: result", "data: \x7b\"a\":", "data: 1\x7d", ""]
        = [⟨Json.str "result", Json.obj [("a", Json.num 1)], none⟩] := by
  refine ⟨?_, ?_, ?_, ?_, rfl⟩
  · intro k buf l rest h
    simp [sseLoop, pyStartsWith_event_ne_empty _ h, h]
  · intro k buf l rest h
    simp [sseLoop, pyStartsWith_data_ne_empty _ h, pyStartsWith_data_not_event _ h, h]
  · intro k buf l rest hblank hbuf
    simp [sseLoop, hblank, hbuf]
  · intro urls resp hu hs
    simp [crawl_sse, hu, hs]

/-- Witness for C4 with the concrete block of the claim, checking each
rule at its corresponding concrete line. -/
theorem crawl_sse_block_accumulation_witness :
    sseLoop jsonLoads "message" []
        ["event: result", "data: \x7b\"a\":", "data: 1\x7d", ""]
      = sseLoop jsonLoads "result" [] ["data: \x7b\"a\":", "data: 1\x7d", ""]
    ∧ sseLoop jsonLoads "result" [] ["data: \x7b\"a\":", "data: 1\x7d", ""]
        = sseLoop jsonLoads "result" ["\x7b\"a\":"] ["data: 1\x7d", ""]
    ∧ sseLoop jsonLoads "result" ["\x7b\"a\":", "1\x7d"] [""]
        = sseCommit jsonLoads "result" ["\x7b\"a\":", "1\x7d"]
            :: sseLoop jsonLoads "message" [] []
    ∧ crawl_sse jsonLoads ["u"]
          ⟨200, ["event: result", "data: \x7b\"a\":", "data: 1\x7d", ""]⟩
        = ⟨true, sseLoop jsonLoads "message" []
             ["event: result", "data: \x7b\"a\":", "data: 1\x7d", ""],
           Outcome.completed⟩ := by
  have T := crawl_sse_block_accumulation jsonLoads
  refine ⟨?_, ?_, ?_, ?_⟩
  · have h := T.1 "message" [] "event: result" ["data: \x7b\"a\":", "data: 1\x7d", ""]
      (by decide)
    simpa using h
  · have h := T.2.1 "result" [] "data: \x7b\"a\":" ["data: 1\x7d", ""] (by decide)
    simpa using h
  · exact T.2.2.1 "result" ["\x7b\"a\":", "1\x7d"] "" [] (by decide) (by decide)
  · exact T.2.2.2.1 ["u"]
      ⟨200, ["event: result", "data: \x7b\"a\":", "data: 1\x7d", ""]⟩ (by decide) rfl

theorem ndjsonLineEvents_no_validation (decode : String → Option Json) (kind : String)
    (lines : List String) :
    (ndjsonLineEvents decode kind lines).2 ≠ Outcome.raised PyExc.validationError := by
  induction lines with
  | nil => simp [ndjsonLineEvents]
  | cons l rest ih =>
    by_cases hl : pyStrip l = ""
    · simpa [ndjsonLineEvents, hl] using ih
    · cases hd : decode l with
      | none => simp [ndjsonLineEvents, hl, hd]
      | some j => simpa [ndjsonLineEvents, hl, hd] using ih

/-- C5: `crawl_ndjson` on an empty URL list and `deepsearch_ndjson` on
an empty query raise `ValidationError` with the connection factory never
invoked (`connected = false`) and no event yielded; and whenever either
adapter's run ends in `ValidationError`, the connection was never
attempted and no event was yielded — so `ValidationError` never occurs
mid-stream. -/
theorem ndjson_empty_input_validation (decode : String → Option Json) :
    (∀ resp, crawl_ndjson decode [] resp
        = ⟨false, [], Outcome.raised PyExc.validationError⟩)
    ∧ (∀ resp, deepsearch_ndjson decode "" resp
        = ⟨false, [], Outcome.raised PyExc.validationError⟩)
    ∧ (∀ urls resp, (crawl_ndjson decode urls resp).outcome
          = Outcome.raised PyExc.validationError →
        (crawl_ndjson decode urls resp).connected = false
          ∧ (crawl_ndjson decode urls resp).events = [])
    ∧ (∀ q resp, (deepsearch_ndjson decode q resp).outcome
          = Outcome.raised PyExc.validationError →
        (deepsearch_ndjson decode q resp).connected = false
          ∧ (deepsearch_ndjson decode q resp).events = []) := by
  refine ⟨fun resp => by simp [crawl_ndjson], fun resp => by simp [deepsearch_ndjson],
    ?_, ?_⟩
  · intro urls resp h
    by_cases hu : urls = []
    · simp [crawl_ndjson, hu]
    · by_cases hs : resp.status_code = 200
      · rw [crawl_ndjson] at h
        simp only [hu, if_false, hs] at h
        simp at h
        exact absurd h (ndjsonLineEvents_no_validation decode _ resp.lines)
      · rw [crawl_ndjson] at h
        simp [hu, hs] at h
  · intro q resp h
    by_cases hq : q = ""
    · simp [deepsearch_ndjson, hq]
    · by_cases hs : resp.status_code = 200
      · rw [deepsearch_ndjson] at h
        simp only [hq, if_false, hs] at h
        simp at h
        exact absurd h (ndjsonLineEvents_no_validation decode _ resp.lines)
      · rw [deepsearch_ndjson] at h
        simp [hq, hs] at h

/-- Witness for C5 at a concrete response: the empty-URL and empty-query
calls do not invoke the connection factory, and the mid-stream clause
instantiated at the empty-URL call. -/
theorem ndjson_empty_input_validation_witness :
    crawl_ndjson jsonLoads [] ⟨200, ["\x7b\x7d"]⟩
      = ⟨false, [], Outcome.raised PyExc.validationError⟩
    ∧ deepsearch_ndjson jsonLoads "" ⟨200, ["\x7b\x7d"]⟩
      = ⟨false, [], Outcome.raised PyExc.validationError⟩
    ∧ ((crawl_ndjson jsonLoads [] ⟨200, ["\x7b\x7d"]⟩).connected = false
        ∧ (crawl_ndjson jsonLoads [] ⟨200, ["\x7b\x7d"]⟩).events = []) :=
  ⟨(ndjson_empty_input_validation jsonLoads).1 ⟨200, ["\x7b\x7d"]⟩,
   (ndjson_empty_input_validation jsonLoads).2.1 ⟨200, ["\x7b\x7d"]⟩,
   (ndjson_empty_input_validation jsonLoads).2.2.1 [] ⟨200, ["\x7b\x7d"]⟩ rfl⟩

/-- C6 counterexample: a handler that raises a generic exception on the
welcome event.  The call ends with `StreamingError` — the adapter's
outer `except Exception` caught the handler's exception and re-raised it
reclassified — rather than propagating the handler's own exception
class. -/
theorem crawl_websocket_handler_exception_cex :
    (crawl_websocket jsonLoads ["u"]
        (some fun _ => some PyExc.otherError) [msgWelcome]).outcome
      = Outcome.raised PyExc.streamingError
    ∧ Outcome.raised PyExc.streamingError ≠ Outcome.raised PyExc.otherError :=
  ⟨rfl, by decide⟩


/-- The trace shape asserted by the callback contract: for each yielded
event, exactly one callback invocation with that same event, immediately
before the yield, in yield order. -/
def pairedTrace : List StreamingResult → List WsAction
  | [] => []
  | e :: rest => WsAction.callback e :: WsAction.yielded e :: pairedTrace rest

theorem wsLoop_events_pure (decode : String → Option Json) (h : Option Handler)
    (hok : ∀ r, hRaise h r = none) (msgs : List String) :
    wsEvents (wsLoop decode h msgs).trace = wsExpectedEvents decode msgs := by
  induction msgs with
  | nil => rfl
  | cons m rest ih =>
    cases hd : decode m with
    | none =>
      simp [wsLoop, wsStep, hd, hok, wsExpectedEvents, wsEvents_append,
            wsEvents_hTrace, wsEvents_cons_yielded, ih]
    | some j =>
      cases hj : wsEventOf "message" j with
      | none => simp [wsLoop, wsStep, hd, hj, hok, wsExpectedEvents, wsEvents_nil]
      | some r =>
        by_cases hs : isSummaryKind r.event_type = true
        · simp [wsLoop, wsStep, hd, hj, hok, hs, wsExpectedEvents, wsEvents_append,
                wsEvents_hTrace, wsEvents_cons_yielded, wsEvents_nil]
        · simp [wsLoop, wsStep, hd, hj, hok, hs, wsExpectedEvents, wsEvents_append,
                wsEvents_hTrace, wsEvents_cons_yielded, ih]

theorem wsLoop_trace_paired (decode : String → Option Json) (f : Handler)
    (hf : ∀ r, f r = none) (msgs : List String) :
    (wsLoop decode (some f) msgs).trace
      = pairedTrace (wsExpectedEvents decode msgs) := by
  induction msgs with
  | nil => rfl
  | cons m rest ih =>
    cases hd : decode m with
    | none =>
      simp [wsLoop, wsStep, hd, hRaise, hf, hTrace, wsExpectedEvents, pairedTrace, ih]
    | some j =>
      cases hj : wsEventOf "message" j with
      | none => simp [wsLoop, wsStep, hd, hj, hRaise, wsExpectedEvents, pairedTrace]
      | some r =>
        by_cases hs : isSummaryKind r.event_type = true
        · simp [wsLoop, wsStep, hd, hj, hRaise, hf, hTrace, hs,
                wsExpectedEvents, pairedTrace]
        · simp [wsLoop, wsStep, hd, hj, hRaise, hf, hTrace, hs,
                wsExpectedEvents, pairedTrace, ih]

theorem wsEvents_pairedTrace (E : List StreamingResult) :
    wsEvents (pairedTrace E) = E := by
  induction E with
  | nil => rfl
  | cons e rest ih =>
    simp [pairedTrace, wsEvents_cons_callback, wsEvents_cons_yielded, ih]

/-- C6 amended: when a handler is supplied, it is invoked exactly once
per yielded event, with the same event, in yield order, immediately
before each yield (the trace is exactly the per-event callback/yield
pairing of the yielded events); but an exception the handler raises is
caught by the adapter: a non-`json.JSONDecodeError` exception aborts the
call and is re-raised wrapped as `StreamingError` (both in the receive
loop and at the welcome stage), not propagated in its own class. -/
theorem crawl_websocket_handler_dispatch_amended :
    (∀ (decode : String → Option Json) urls msgs (f : Handler), (∀ r, f r = none) →
        (crawl_websocket decode urls (some f) msgs).trace
          = pairedTrace
              (wsEvents (crawl_websocket decode urls (some f) msgs).trace))
    ∧ (∀ (decode : String → Option Json) (f : Handler) m rest j r e,
        decode m = some j → wsEventOf "message" j = some r →
        f r = some e → e ≠ PyExc.jsonDecodeError →
        wsLoop decode (some f) (m :: rest)
          = ⟨[WsAction.callback r], Outcome.raised PyExc.streamingError⟩)
    ∧ (∀ (decode : String → Option Json) urls (f : Handler) w rest fs e,
        urls ≠ [] → decode w = some (Json.obj fs) →
        f (wsObjEvent "welcome" fs) = some e →
        crawl_websocket decode urls (some f) (w :: rest)
          = ⟨[WsAction.callback (wsObjEvent "welcome" fs)],
             Outcome.raised PyExc.streamingError⟩) := by
  refine ⟨?_, ?_, ?_⟩
  · intro decode urls msgs f hf
    have hok : ∀ r, hRaise (some f) r = none := fun r => by simp [hRaise, hf]
    by_cases hu : urls = []
    · simp [crawl_websocket, hu, wsEvents_nil, pairedTrace]
    · cases msgs with
      | nil => simp [crawl_websocket, hu, wsEvents_nil, pairedTrace]
      | cons w rest =>
        cases hd : decode w with
        | none => simp [crawl_websocket, hu, hd, wsEvents_nil, pairedTrace]
        | some j =>
          cases hj : wsEventOf "welcome" j with
          | none => simp [crawl_websocket, hu, hd, hj, wsEvents_nil, pairedTrace]
          | some wr =>
            simp [crawl_websocket, hu, hd, hj, hRaise, hf, hTrace,
                  wsEvents_cons_yielded, wsEvents_cons_callback, pairedTrace,
                  wsEvents_pairedTrace,
                  wsLoop_trace_paired decode f hf rest]
  · intro decode f m rest j r e hd hj hr hne
    cases e with
    | jsonDecodeError => exact absurd rfl hne
    | attributeError => simp [wsLoop, wsStep, hd, hj, hRaise, hr, hTrace]
    | streamingError => simp [wsLoop, wsStep, hd, hj, hRaise, hr, hTrace]
    | validationError => simp [wsLoop, wsStep, hd, hj, hRaise, hr, hTrace]
    | otherError => simp [wsLoop, wsStep, hd, hj, hRaise, hr, hTrace]
  · intro decode urls f w rest fs e hu hd hr
    simp [crawl_websocket, hu, hd, wsEventOf, hRaise, hr, hTrace]

/-- Witness for C6 amended: a never-raising handler over a 2-frame
session, and a handler raising a generic exception at the loop's result
event and at the welcome event. -/
theorem crawl_websocket_handler_dispatch_amended_witness :
    ((crawl_websocket jsonLoads ["u"] (some fun _ => none)
        [msgWelcome, msgSummary]).trace
      = pairedTrace (wsEvents (crawl_websocket jsonLoads ["u"]
           (some fun _ => none) [msgWelcome, msgSummary]).trace))
    ∧ wsLoop jsonLoads (some fun _ => some PyExc.otherError) [msgResult]
        = ⟨[WsAction.callback ⟨Json.str "result",
              Json.obj [("url", Json.str "u")], none⟩],
           Outcome.raised PyExc.streamingError⟩
    ∧ crawl_websocket jsonLoads ["u"] (some fun _ => some PyExc.otherError)
          [msgWelcome, msgResult]
        = ⟨[WsAction.callback (wsObjEvent "welcome"
              [("message_type", Json.str "welcome"),
               ("data", Json.obj [("session_id", Json.str "A")])])],
           Outcome.raised PyExc.streamingError⟩ :=
  ⟨crawl_websocket_handler_dispatch_amended.1 jsonLoads ["u"]
      [msgWelcome, msgSummary] (fun _ => none) (fun _ => rfl),
   crawl_websocket_handler_dispatch_amended.2.1 jsonLoads
      (fun _ => some PyExc.otherError) msgResult []
      (Json.obj [("message_type", Json.str "result"),
                 ("data", Json.obj [("url", Json.str "u")])])
      ⟨Json.str "result", Json.obj [("url", Json.str "u")], none⟩
      PyExc.otherError rfl rfl rfl (by decide),
   crawl_websocket_handler_dispatch_amended.2.2 jsonLoads ["u"]
      (fun _ => some PyExc.otherError) msgWelcome [msgResult]
      [("message_type", Json.str "welcome"),
       ("data", Json.obj [("session_id", Json.str "A")])]
      PyExc.otherError (by decide) rfl rfl⟩

/-- C7 counterexample: a ping exchange whose welcome frame carries
`session_id = "A"` while the pong frame carries `session_id = "B"`.
The returned record reports `"B"`: the code reads `session_id` (and
`server_time`) from the pong payload and discards the welcome frame
without decoding it; and with clock values 0 (before connecting) and 7
(at pong receipt) the reported latency is `7 * 1000`, measured from
before the connection was opened, not from the ping send. -/
theorem ping_websocket_session_id_cex :
    ping_websocket jsonLoads 0 7 msgWelcome msgPong
      = Except.ok ⟨true, 7000, some (Json.str "T"), some (Json.str "B")⟩
    ∧ jsonLoads msgWelcome
      = some (Json.obj [("message_type", Json.str "welcome"),
          ("data", Json.obj [("session_id", Json.str "A")])])
    ∧ dictGet [("session_id", Json.str "A")] "session_id" = some (Json.str "A")
    ∧ (some (Json.str "B") : Option Json) ≠ some (Json.str "A") :=
  ⟨rfl, rfl, rfl, fun h => absurd (Json.str.inj (Option.some.inj h)) (by decide)⟩

/-- C7 amended: `ping_websocket` returns
`{success, latency_ms, server_time, session_id}` where `latency_ms` is
the wall-clock delta between the start of the call — taken before the
connection is even opened — and the receipt of the pong (hence
non-negative whenever the clock is monotone, and an upper bound on the
send-to-pong delta), and both `server_time` and `session_id` are pulled
from the pong payload's `data` object; the welcome frame is received but
its content is discarded. -/
theorem ping_websocket_latency_amended (decode : String → Option Json)
    (t_start t_end : Int) (w p : String) (fs dfs : List (String × Json))
    (hp : decode p = some (Json.obj fs))
    (hd : (fs.lookup "data").getD (Json.obj []) = Json.obj dfs)
    (ht : t_start ≤ t_end) :
    ping_websocket decode t_start t_end w p
      = Except.ok ⟨true, (t_end - t_start) * 1000,
          dictGet dfs "timestamp", dictGet dfs "session_id"⟩
    ∧ 0 ≤ (t_end - t_start) * 1000 := by
  constructor
  · simp [ping_websocket, hp, hd]
  · have : (0 : Int) ≤ t_end - t_start := by omega
    positivity

/-- Witness for C7 amended at the concrete welcome/pong frames and
clock values 0 and 7. -/
theorem ping_websocket_latency_amended_witness :
    (ping_websocket jsonLoads 0 7 msgWelcome msgPong
      = Except.ok ⟨true, (7 - 0) * 1000,
          dictGet [("session_id", Json.str "B"), ("timestamp", Json.str "T")] "timestamp",
          dictGet [("session_id", Json.str "B"), ("timestamp", Json.str "T")] "session_id"⟩)
    ∧ 0 ≤ ((7 : Int) - 0) * 1000 :=
  ping_websocket_latency_amended jsonLoads 0 7 msgWelcome msgPong
    [("message_type", Json.str "pong"),
     ("data", Json.obj [("session_id", Json.str "B"), ("timestamp", Json.str "T")])]
    [("session_id", Json.str "B"), ("timestamp", Json.str "T")]
    rfl rfl (by decide)

/-- C8 counterexample: an SSE stream whose `event:` line has an empty
remainder.  The committed event's kind is the empty string, refuting the
invariant that every produced event kind is a non-empty string. -/
theorem event_kind_empty_cex :
    ((crawl_sse jsonLoads ["u"] ⟨200, ["event:", "data: x", ""]⟩).events.map
        StreamingResult.event_type) = [Json.str ""]
    ∧ ∃ ev ∈ (crawl_sse jsonLoads ["u"] ⟨200, ["event:", "data: x", ""]⟩).events,
        ev.event_type = Json.str "" :=
  ⟨rfl, ⟨⟨Json.str "", Json.obj [("raw", Json.str "x")], none⟩,
    List.mem_cons_self _ _, rfl⟩⟩

theorem ndjsonLineEvents_kinds (decode : String → Option Json) (kind : String)
    (lines : List String) :
    ∀ ev ∈ (ndjsonLineEvents decode kind lines).1, ev.event_type = Json.str kind := by
  induction lines with
  | nil => simp [ndjsonLineEvents]
  | cons l rest ih =>
    by_cases hl : pyStrip l = ""
    · simpa [ndjsonLineEvents, hl] using ih
    · cases hd : decode l with
      | none => simp [ndjsonLineEvents, hl, hd]
      | some j =>
        intro ev hev
        simp only [ndjsonLineEvents, hl, if_false, hd, List.mem_cons] at hev
        rcases hev with rfl | hev
        · rfl
        · exact ih ev hev


theorem sseCommit_kind (decode : String → Option Json) (k : String)
    (buf : List String) : (sseCommit decode k buf).event_type = Json.str k := by
  cases hd : decode (String.intercalate "\n" buf) <;> simp [sseCommit, hd]

theorem sseLoop_kinds (decode : String → Option Json) :
    ∀ (lines : List String) (k : String) (buf : List String), k ≠ "" →
      (∀ l ∈ lines, pyStartsWith (pyStrip l) "event:" = true →
        pyStrip ((pyStrip l).drop 6) ≠ "") →
      ∀ ev ∈ sseLoop decode k buf lines,
        ∃ s, ev.event_type = Json.str s ∧ s ≠ "" := by
  intro lines
  induction lines with
  | nil => intro k buf _ _ ev hev; simp [sseLoop] at hev
  | cons l rest ih =>
    intro k buf hk hl ev hev
    have hrest := fun x hx => hl x (List.mem_cons_of_mem _ hx)
    by_cases hb : pyStrip l = ""
    · by_cases hbuf : buf = []
      · subst hbuf
        simp [sseLoop, hb] at hev
        exact ih k [] hk hrest ev hev
      · simp [sseLoop, hb, hbuf] at hev
        rcases hev with rfl | hev
        · exact ⟨k, sseCommit_kind decode k buf, hk⟩
        · exact ih "message" [] (by decide) hrest ev hev
    · by_cases he : pyStartsWith (pyStrip l) "event:" = true
      · simp [sseLoop, hb, he] at hev
        exact ih _ buf (hl l (List.mem_cons_self _ _) he) hrest ev hev
      · by_cases hdta : pyStartsWith (pyStrip l) "data:" = true
        · simp [sseLoop, hb, he, hdta] at hev
          exact ih k _ hk hrest ev hev
        · simp [sseLoop, hb, he, hdta] at hev
          exact ih k buf hk hrest ev hev

/-- The per-message envelope constraint under which WebSocket event
kinds stay non-empty strings: when a message decodes to an object, its
`message_type` entry is either absent or a non-empty string. -/
def goodKindJson : Option Json → Prop
  | some (Json.obj fs) =>
    fs.lookup "message_type" = none
      ∨ ∃ s, fs.lookup "message_type" = some (Json.str s) ∧ s ≠ ""
  | _ => True

theorem wsObjEvent_kind_good (dk : String) (fs : List (String × Json))
    (hdk : dk ≠ "")
    (hm : fs.lookup "message_type" = none
        ∨ ∃ s, fs.lookup "message_type" = some (Json.str s) ∧ s ≠ "") :
    ∃ s, (wsObjEvent dk fs).event_type = Json.str s ∧ s ≠ "" := by
  rcases hm with hm | ⟨s, hs, hne⟩
  · exact ⟨dk, by simp [wsObjEvent, hm], hdk⟩
  · exact ⟨s, by simp [wsObjEvent, hs], hne⟩

theorem wsLoop_kinds (decode : String → Option Json) (h : Option Handler) :
    ∀ msgs : List String, (∀ m ∈ msgs, goodKindJson (decode m)) →
      ∀ ev ∈ wsEvents (wsLoop decode h msgs).trace,
        ∃ s, ev.event_type = Json.str s ∧ s ≠ "" := by
  intro msgs
  induction msgs with
  | nil => intro _ ev hev; simp [wsLoop, wsEvents_nil] at hev
  | cons m rest ih =>
    intro hmsgs ev hev
    have hrest := fun x hx => hmsgs x (List.mem_cons_of_mem _ hx)
    have hm := hmsgs m (List.mem_cons_self _ _)
    cases hd : decode m with
    | none =>
      cases hr : hRaise h (wsErrorEvent m) with
      | some e =>
        simp [wsLoop, wsStep, hd, hr, wsEvents_hTrace] at hev
      | none =>
        simp [wsLoop, wsStep, hd, hr, wsEvents_append, wsEvents_hTrace,
          wsEvents_cons_yielded, wsEvents_nil] at hev
        rcases hev with rfl | hev
        · exact ⟨"error", rfl, by decide⟩
        · exact ih hrest ev hev
    | some j =>
      rw [hd] at hm
      cases j with
      | obj fs =>
        have hkind : ∃ s, (wsObjEvent "message" fs).event_type = Json.str s ∧ s ≠ "" :=
          wsObjEvent_kind_good "message" fs (by decide) hm
        cases hr : hRaise h (wsObjEvent "message" fs) with
        | some e =>
          cases e with
          | jsonDecodeError =>
            cases hr2 : hRaise h (wsErrorEvent m) with
            | some e2 =>
              simp [wsLoop, wsStep, hd, wsEventOf, hr, hr2, wsEvents_append,
                wsEvents_hTrace] at hev
            | none =>
              simp [wsLoop, wsStep, hd, wsEventOf, hr, hr2, wsEvents_append,
                wsEvents_hTrace, wsEvents_cons_yielded, wsEvents_nil] at hev
              rcases hev with rfl | hev
              · exact ⟨"error", rfl, by decide⟩
              · exact ih hrest ev hev
          | attributeError =>
            simp [wsLoop, wsStep, hd, wsEventOf, hr, wsEvents_hTrace] at hev
          | streamingError =>
            simp [wsLoop, wsStep, hd, wsEventOf, hr, wsEvents_hTrace] at hev
          | validationError =>
            simp [wsLoop, wsStep, hd, wsEventOf, hr, wsEvents_hTrace] at hev
          | otherError =>
            simp [wsLoop, wsStep, hd, wsEventOf, hr, wsEvents_hTrace] at hev
        | none =>
          by_cases hs : isSummaryKind (wsObjEvent "message" fs).event_type = true
          · simp [wsLoop, wsStep, hd, wsEventOf, hr, hs, wsEvents_append,
              wsEvents_hTrace, wsEvents_cons_yielded, wsEvents_nil] at hev
            subst hev
            exact hkind
          · simp [wsLoop, wsStep, hd, wsEventOf, hr, hs, wsEvents_append,
              wsEvents_hTrace, wsEvents_cons_yielded, wsEvents_nil] at hev
            rcases hev with rfl | hev
            · exact hkind
            · exact ih hrest ev hev
      | null => simp [wsLoop, wsStep, hd, wsEventOf, wsEvents_nil] at hev
      | bool b => simp [wsLoop, wsStep, hd, wsEventOf, wsEvents_nil] at hev
      | num n => simp [wsLoop, wsStep, hd, wsEventOf, wsEvents_nil] at hev
      | str s => simp [wsLoop, wsStep, hd, wsEventOf, wsEvents_nil] at hev
      | arr xs => simp [wsLoop, wsStep, hd, wsEventOf, wsEvents_nil] at hev

/-- C8 amended: the NDJSON adapters always produce the non-empty kinds
`"crawl_result"`/`"search_result"`; the SSE and WebSocket adapters
produce non-empty string kinds provided every `event:` line carries a
non-empty name and every decoded message envelope's `message_type` is
absent or a non-empty string — without those provisos the kind can be
the empty string, as the counterexample shows. -/
theorem event_kind_nonempty_amended (decode : String → Option Json) :
    (∀ urls resp ev, ev ∈ (crawl_ndjson decode urls resp).events →
        ev.event_type = Json.str "crawl_result")
    ∧ (∀ q resp ev, ev ∈ (deepsearch_ndjson decode q resp).events →
        ev.event_type = Json.str "search_result")
    ∧ (∀ urls resp, (∀ l ∈ resp.lines, pyStartsWith (pyStrip l) "event:" = true →
          pyStrip ((pyStrip l).drop 6) ≠ "") →
        ∀ ev ∈ (crawl_sse decode urls resp).events,
          ∃ s, ev.event_type = Json.str s ∧ s ≠ "")
    ∧ (∀ urls h msgs, (∀ m ∈ msgs, goodKindJson (decode m)) →
        ∀ ev ∈ wsEvents (crawl_websocket decode urls h msgs).trace,
          ∃ s, ev.event_type = Json.str s ∧ s ≠ "") := by
  refine ⟨?_, ?_, ?_, ?_⟩
  · intro urls resp ev hev
    by_cases hu : urls = []
    · simp [crawl_ndjson, hu] at hev
    · by_cases hs : resp.status_code = 200
      · rw [crawl_ndjson] at hev
        simp [hu, hs] at hev
        exact ndjsonLineEvents_kinds decode _ resp.lines ev hev
      · rw [crawl_ndjson] at hev
        simp [hu, hs] at hev
  · intro q resp ev hev
    by_cases hq : q = ""
    · simp [deepsearch_ndjson, hq] at hev
    · by_cases hs : resp.status_code = 200
      · rw [deepsearch_ndjson] at hev
        simp [hq, hs] at hev
        exact ndjsonLineEvents_kinds decode _ resp.lines ev hev
      · rw [deepsearch_ndjson] at hev
        simp [hq, hs] at hev
  · intro urls resp hlines ev hev
    by_cases hu : urls = []
    · simp [crawl_sse, hu] at hev
    · by_cases hs : resp.status_code = 200
      · rw [crawl_sse] at hev
        simp [hu, hs] at hev
        exact sseLoop_kinds decode resp.lines "message" [] (by decide) hlines ev hev
      · rw [crawl_sse] at hev
        simp [hu, hs] at hev
  · intro urls h msgs hmsgs ev hev
    by_cases hu : urls = []
    · simp [crawl_websocket, hu, wsEvents_nil] at hev
    · cases msgs with
      | nil => simp [crawl_websocket, hu, wsEvents_nil] at hev
      | cons w rest =>
        have hrest := fun x hx => hmsgs x (List.mem_cons_of_mem _ hx)
        have hw := hmsgs w (List.mem_cons_self _ _)
        cases hd : decode w with
        | none => simp [crawl_websocket, hu, hd, wsEvents_nil] at hev
        | some j =>
          rw [hd] at hw
          cases j with
          | obj fs =>
            simp only [goodKindJson] at hw
            cases hr : hRaise h (wsObjEvent "welcome" fs) with
            | some e =>
              simp [crawl_websocket, hu, hd, wsEventOf, hr, wsEvents_hTrace] at hev
            | none =>
              simp [crawl_websocket, hu, hd, wsEventOf, hr, wsEvents_append,
                wsEvents_hTrace, wsEvents_cons_yielded] at hev
              rcases hev with rfl | hev
              · exact wsObjEvent_kind_good "welcome" fs (by decide) hw
              · exact wsLoop_kinds decode h rest hrest ev hev
          | null => simp [crawl_websocket, hu, hd, wsEventOf, wsEvents_nil] at hev
          | bool b => simp [crawl_websocket, hu, hd, wsEventOf, wsEvents_nil] at hev
          | num n => simp [crawl_websocket, hu, hd, wsEventOf, wsEvents_nil] at hev
          | str s => simp [crawl_websocket, hu, hd, wsEventOf, wsEvents_nil] at hev
          | arr xs => simp [crawl_websocket, hu, hd, wsEventOf, wsEvents_nil] at hev

/-- Witness for C8 amended at concrete runs of all four adapters. -/
theorem event_kind_nonempty_amended_witness :
    ((⟨Json.str "crawl_result", Json.obj [("x", Json.num 1)], none⟩
        : StreamingResult).event_type = Json.str "crawl_result")
    ∧ ((⟨Json.str "search_result", Json.obj [("x", Json.num 1)], none⟩
        : StreamingResult).event_type = Json.str "search_result")
    ∧ (∃ s, (⟨Json.str "result", Json.obj [("a", Json.num 1)], none⟩
        : StreamingResult).event_type = Json.str s ∧ s ≠ "")
    ∧ (∃ s, (⟨Json.str "welcome", Json.obj [("session_id", Json.str "A")], none⟩
        : StreamingResult).event_type = Json.str s ∧ s ≠ "") := by
  have T := event_kind_nonempty_amended jsonLoads
  refine ⟨?_, ?_, ?_, ?_⟩
  · exact T.1 ["u"] ⟨200, ["\x7b\"x\":1\x7d"]⟩
      ⟨Json.str "crawl_result", Json.obj [("x", Json.num 1)], none⟩
      (List.mem_cons_self _ _)
  · exact T.2.1 "q" ⟨200, ["\x7b\"x\":1\x7d"]⟩
      ⟨Json.str "search_result", Json.obj [("x", Json.num 1)], none⟩
      (List.mem_cons_self _ _)
  · exact T.2.2.1 ["u"]
      ⟨200, ["event: result", "data: \x7b\"a\":", "data: 1\x7d", ""]⟩
      (by decide)
      ⟨Json.str "result", Json.obj [("a", Json.num 1)], none⟩
      (List.mem_cons_self _ _)
  · refine T.2.2.2 ["u"] none [msgWelcome, msgSummary] ?_
      ⟨Json.str "welcome", Json.obj [("session_id", Json.str "A")], none⟩
      (List.mem_cons_self _ _)
    intro m hm
    rcases List.mem_cons.mp hm with rfl | hm
    · exact Or.inr ⟨"welcome", rfl, by decide⟩
    · rcases List.mem_cons.mp hm with rfl | hm
      · exact Or.inr ⟨"summary", rfl, by decide⟩
      · simp at hm

/-- C9: if the very first (welcome) frame fails JSON decoding, the
`crawl_websocket` call raises `StreamingError` (the decode happens
outside the receive loop's `try`, so the outer `except Exception` wraps
it) and yields no event and invokes no handler; by contrast, the same
undecodable text arriving inside the receive loop — after the crawl
request has been sent — is tolerated as an inline `kind="error"`
event. -/
theorem crawl_websocket_welcome_decode_failure
    (decode : String → Option Json) (urls : List String) (h : Option Handler)
    (w : String) (rest : List String)
    (hu : urls ≠ []) (hw : decode w = none) :
    crawl_websocket decode urls h (w :: rest)
      = ⟨[], Outcome.raised PyExc.streamingError⟩
    ∧ wsEvents (crawl_websocket decode urls h (w :: rest)).trace = []
    ∧ ∀ msgs, wsEvents (wsLoop decode none (w :: msgs)).trace
        = wsErrorEvent w :: wsEvents (wsLoop decode none msgs).trace := by
  have key : crawl_websocket decode urls h (w :: rest)
      = ⟨[], Outcome.raised PyExc.streamingError⟩ := by
    simp [crawl_websocket, hu, hw]
  refine ⟨key, by rw [key]; rfl, ?_⟩
  intro msgs
  simp [wsLoop, wsStep, hw, hRaise, hTrace, wsEvents_cons_yielded]

/-- Witness for C9: the undecodable text `"oops"` as the welcome frame
of a concrete call, and the same text inside the receive loop. -/
theorem crawl_websocket_welcome_decode_failure_witness :
    crawl_websocket jsonLoads ["u"] none ("oops" :: [msgSummary])
      = ⟨[], Outcome.raised PyExc.streamingError⟩
    ∧ wsEvents (crawl_websocket jsonLoads ["u"] none ("oops" :: [msgSummary])).trace = []
    ∧ ∀ msgs, wsEvents (wsLoop jsonLoads none ("oops" :: msgs)).trace
        = wsErrorEvent "oops" :: wsEvents (wsLoop jsonLoads none msgs).trace :=
  crawl_websocket_welcome_decode_failure jsonLoads ["u"] none "oops" [msgSummary]
    (by decide) rfl

/-- C10: the SSE loop yields an event only when a blank line follows a
non-empty data buffer: over a tail of lines none of which is blank after
stripping, no event is ever yielded (so data buffered at end-of-stream
is silently discarded); and a run of `event:`-only lines closed by a
blank line with an empty buffer yields no event — the blank line merely
leaves the pending kind set by those lines (it is not reset, since no
commit happened). -/
theorem crawl_sse_commit_requires_blank_and_data (decode : String → Option Json) :
    (∀ k buf lines, (∀ l ∈ lines, pyStrip l ≠ "") →
        sseLoop decode k buf lines = [])
    ∧ (∀ k evLines rest, (∀ l ∈ evLines, pyStartsWith (pyStrip l) "event:" = true) →
        sseLoop decode k [] (evLines ++ "" :: rest)
          = sseLoop decode
              (evLines.foldl (fun _ l => pyStrip ((pyStrip l).drop 6)) k) [] rest) := by
  constructor
  · intro k buf lines
    induction lines generalizing k buf with
    | nil => intro _; rfl
    | cons l rest ih =>
      intro hl
      have hrest := fun x hx => hl x (List.mem_cons_of_mem _ hx)
      have hb : pyStrip l ≠ "" := hl l (List.mem_cons_self _ _)
      by_cases he : pyStartsWith (pyStrip l) "event:" = true
      · simp [sseLoop, hb, he, ih _ _ hrest]
      · by_cases hdta : pyStartsWith (pyStrip l) "data:" = true
        · simp [sseLoop, hb, he, hdta, ih _ _ hrest]
        · simp [sseLoop, hb, he, hdta, ih _ _ hrest]
  · intro k evLines rest
    induction evLines generalizing k with
    | nil => intro _; simp [sseLoop, show pyStrip "" = "" from rfl]
    | cons l ls ih =>
      intro hl
      have he : pyStartsWith (pyStrip l) "event:" = true := hl l (List.mem_cons_self _ _)
      have hb : pyStrip l ≠ "" := pyStartsWith_event_ne_empty _ he
      have hls := fun x hx => hl x (List.mem_cons_of_mem _ hx)
      simp [sseLoop, hb, he, ih _ hls]

/-- Witness for C10: a stream ending with buffered data and no blank
line yields nothing, and an `event:`-only block closed by a blank line
yields nothing while carrying the pending kind over. -/
theorem crawl_sse_commit_requires_blank_and_data_witness :
    sseLoop jsonLoads "message" [] ["event: result", "data: \x7b\"a\":1\x7d"] = []
    ∧ sseLoop jsonLoads "message" [] (["event: result"] ++ "" :: ["data: 1", ""])
        = sseLoop jsonLoads
            (["event: result"].foldl (fun _ l => pyStrip ((pyStrip l).drop 6)) "message")
            [] ["data: 1", ""] :=
  ⟨(crawl_sse_commit_requires_blank_and_data jsonLoads).1 "message" []
      ["event: result", "data: \x7b\"a\":1\x7d"] (by decide),
   (crawl_sse_commit_requires_blank_and_data jsonLoads).2 "message"
      ["event: result"] ["data: 1", ""] (by decide)⟩
